import Mathlib

/-
Verification of the process-lifecycle core of the sentry kernel
(pkg/sentry/kernel/kernel.go) via a shallow embedding in Lean.

Each definition mirrors one function or field cluster of the Go source;
the line numbers in the doc comments refer to pkg/sentry/kernel/kernel.go.
External collaborators (the loader, the VFS, the task registry, the state
codec) are modelled as oracle arguments, since the source treats them as
opaque services whose results it only branches on.
-/

namespace GVisor

/-! ## Data model -/

/-- Model of a vfs.FileDescription as CreateProcess observes it: the only
operation CreateProcess performs on args.File is MappedName (kernel.go:1093). -/
structure FileDescription where
  mappedName : String
deriving DecidableEq

/-- Model of CreateProcessArgs (kernel.go:869-935), restricted to the fields
that the control flow of CreateProcess branches on. -/
structure CreateProcessArgs where
  filename : String
  file : Option FileDescription
  argv : List String
  workingDirectory : String
  hasMountNamespace : Bool
  hasTTY : Bool
deriving DecidableEq

/-- Errors returned by CreateProcess, one constructor per return-error site
in kernel.go:1035-1172. Each carries the data the Go error message formats. -/
inductive CreateProcessError
  | mountNamespaceNil
  | workingDirLookupFailed (wd : String)
  | noFilenameOrCommand
  | notAnAbsolutePath (arg : String)
  | loadFailed (msg : String)
  | updateCredsFailed
  | newTaskFailed
  | setTTYFailed
deriving DecidableEq

/-- Results of the external collaborators invoked by CreateProcess, passed in
as oracles: GetDentryAt for the working directory (kernel.go:1071),
LoadTaskImage (kernel.go:1120), auth.UpdateCredsForNewTask (kernel.go:1124),
TaskSet.NewTask (kernel.go:1152) and SetControllingTTY (kernel.go:1160). -/
structure CreateProcessExt where
  wdLookupOk : Bool
  loadResult : Except String Nat
  credsOk : Bool
  newTaskOk : Bool
  ttyOk : Bool

/-- Kernel state, restricted to the fields mutated or read by CreateProcess
and Start: globalInit (kernel.go:199), started (kernel.go:162),
cpuClockTickerRunning together with cpuClockTickTimer (kernel.go:220-227,
both armed by Start, folded into one flag here), the identifiers of the
live thread groups, and the tasks registered in tasks.Root.tids. Thread
groups and tasks are identified by natural numbers. -/
structure Kernel where
  globalInit : Option Nat
  nextThreadGroupID : Nat
  liveThreadGroups : List Nat
  started : Bool
  cpuClockTickerRunning : Bool
  registeredTasks : List Nat
deriving DecidableEq

/-- Successful CreateProcess outcome: the new thread group and the
filename/file pair that was handed to the loader in LoadArgs
(kernel.go:1107-1118). -/
structure CreateProcessSuccess where
  tgID : Nat
  loadedFilename : String
  loadedFile : Option FileDescription
deriving DecidableEq

/-! ## CreateProcess -/

/-- Model of filepath.IsAbs on linux: a path is absolute iff it is
non-empty and begins with a slash (strings.HasPrefix on "/"). -/
def filepathIsAbs (path : String) : Bool :=
  match path.data with
  | [] => false
  | c :: _ => c = '/'

/-- Model of the executable-resolution switch of CreateProcess
(kernel.go:1086-1103): a non-empty Filename wins and clears File; otherwise
a provided File supplies its mapped name; otherwise Argv[0] must exist and
be absolute. -/
def resolveExecutable (filename : String) (file : Option FileDescription)
    (argv : List String) :
    Except CreateProcessError (String × Option FileDescription) :=
  if filename ≠ "" then
    .ok (filename, none)
  else
    match file with
    | some f => .ok (f.mappedName, some f)
    | none =>
      match argv with
      | [] => .error .noFilenameOrCommand
      | a0 :: _ =>
        if filepathIsAbs a0 then .ok (a0, none)
        else .error (.notAnAbsolutePath a0)

/-- Model of Kernel.CreateProcess (kernel.go:1035-1172). Returns the result
together with the kernel state after the call: every error return runs the
cleanup that releases the fresh thread group (kernel.go:1080-1083), so on
error the kernel state is unchanged; on success the thread group is kept,
and globalInit is assigned iff it was nil (kernel.go:1168-1170). -/
def Kernel.createProcess (k : Kernel) (args : CreateProcessArgs)
    (ext : CreateProcessExt) :
    Except CreateProcessError CreateProcessSuccess × Kernel :=
  if args.hasMountNamespace = false ∧ k.globalInit = none then
    (.error .mountNamespaceNil, k)
  else if args.workingDirectory ≠ "" ∧ ext.wdLookupOk = false then
    (.error (.workingDirLookupFailed args.workingDirectory), k)
  else
    match resolveExecutable args.filename args.file args.argv with
    | .error e => (.error e, k)
    | .ok (fname, f) =>
      match ext.loadResult with
      | .error msg => (.error (.loadFailed msg), k)
      | .ok _image =>
        if ext.credsOk = false then (.error .updateCredsFailed, k)
        else if ext.newTaskOk = false then (.error .newTaskFailed, k)
        else if args.hasTTY = true ∧ ext.ttyOk = false then
          (.error .setTTYFailed, k)
        else
          (.ok ⟨k.nextThreadGroupID, fname, f⟩,
           { k with
             nextThreadGroupID := k.nextThreadGroupID + 1
             liveThreadGroups := k.liveThreadGroups ++ [k.nextThreadGroupID]
             globalInit :=
               match k.globalInit with
               | none => some k.nextThreadGroupID
               | some g => some g })

/-! ## Start -/

/-- Model of Kernel.Start (kernel.go:1184-1216). Returns the error (the Go
error string), the kernel state after the call, and the list of tasks on
which t.Start was invoked, in order. A started kernel reports the error and
does nothing; otherwise started is set, the CPU-clock tick timer is created
and the ticker goroutine marked running (kernel.go:1193-1197), and every
task registered in tasks.Root.tids is started (kernel.go:1202-1214). -/
def Kernel.start (k : Kernel) : Except String Unit × Kernel × List Nat :=
  if k.started then
    (.error "kernel already started", k, [])
  else
    (.ok (),
     { k with started := true, cpuClockTickerRunning := true },
     k.registeredTasks)

/-! ## Running-task accounting -/

/-- Model of Kernel.incRunningTasks (kernel.go:1293-1352): whichever path is
taken (the CAS loop for nonzero counts or the locked 0-to-1 transition), the
observable effect on k.runningTasks is an increment by one. -/
def incRunningTasks (runningTasks : Int) : Int :=
  runningTasks + 1

/-- Model of Kernel.decRunningTasks (kernel.go:1354-1364): the counter is
decremented; if the result is negative the function panics
("Invalid running count"), modelled as none. -/
def decRunningTasks (runningTasks : Int) : Option Int :=
  let tasks := runningTasks - 1
  if tasks < 0 then none else some tasks

/-- An operation on the running-task counter. -/
inductive TaskCountOp
  | inc
  | dec
deriving DecidableEq

/-- Run a sequence of inc/dec operations from a starting counter value;
none means some decrement hit the panic branch of decRunningTasks. -/
def runTaskCountOps (runningTasks : Int) : List TaskCountOp → Option Int
  | [] => some runningTasks
  | .inc :: rest => runTaskCountOps (incRunningTasks runningTasks) rest
  | .dec :: rest =>
    match decRunningTasks runningTasks with
    | none => none
    | some n => runTaskCountOps n rest

/-! ## External signal delivery -/

/-- Model of a ThreadGroup as the signal-delivery loops observe it: its
identity, the process group it belongs to (ProcessGroup, kernel.go:1448)
and the container ID of its leader (kernel.go:1468). -/
structure SigThreadGroup where
  id : Nat
  processGroup : Nat
  leaderContainerID : String
deriving DecidableEq

/-- Loop body of Kernel.SendExternalSignalProcessGroup (kernel.go:1447-1454),
with the loop state (the thread groups attempted so far, in order, and
firstErr) as explicit accumulators. The oracle deliver models
ThreadGroup.SendSignal: some error or none for success. -/
def sendExternalSignalProcessGroupLoop (deliver : Nat → Option Nat) (pg : Nat) :
    List SigThreadGroup → List Nat → Option Nat → List Nat × Option Nat
  | [], attempted, firstErr => (attempted, firstErr)
  | tg :: rest, attempted, firstErr =>
    if tg.processGroup ≠ pg then
      sendExternalSignalProcessGroupLoop deliver pg rest attempted firstErr
    else
      sendExternalSignalProcessGroupLoop deliver pg rest (attempted ++ [tg.id])
        (match firstErr, deliver tg.id with
         | none, some e => some e
         | fe, _ => fe)

/-- Model of Kernel.SendExternalSignalProcessGroup (kernel.go:1441-1456):
iterate all thread groups, skip those outside the process group, attempt
delivery to each remaining one, and remember only the FIRST error
(firstErr is written only while it is still nil). Returns the list of
thread groups to which delivery was attempted, in order, and the returned
error. -/
def sendExternalSignalProcessGroup (tgs : List SigThreadGroup) (pg : Nat)
    (deliver : Nat → Option Nat) : List Nat × Option Nat :=
  sendExternalSignalProcessGroupLoop deliver pg tgs [] none

/-- Loop body of Kernel.SendContainerSignal (kernel.go:1467-1476), with the
loop state (the thread groups attempted so far, in order, and lastErr) as
explicit accumulators. The oracle deliver models
Task.sendSignalLocked(group=true) on the leader. -/
def sendContainerSignalLoop (deliver : Nat → Option Nat) (cid : String) :
    List SigThreadGroup → List Nat → Option Nat → List Nat × Option Nat
  | [], attempted, lastErr => (attempted, lastErr)
  | tg :: rest, attempted, lastErr =>
    if tg.leaderContainerID ≠ cid then
      sendContainerSignalLoop deliver cid rest attempted lastErr
    else
      sendContainerSignalLoop deliver cid rest (attempted ++ [tg.id])
        (match deliver tg.id with
         | some e => some e
         | none => lastErr)

/-- Model of Kernel.SendContainerSignal (kernel.go:1460-1478): iterate all
thread groups, skip those whose leader has a different container ID, attempt
delivery to each remaining one, and overwrite lastErr on EVERY failed
delivery. Returns the list of thread groups to which delivery was attempted,
in order, and the returned error. -/
def sendContainerSignal (tgs : List SigThreadGroup) (cid : String)
    (deliver : Nat → Option Nat) : List Nat × Option Nat :=
  sendContainerSignalLoop deliver cid tgs [] none

/-- First error in a list of delivery results (none entries are successes). -/
def firstSome : List (Option Nat) → Option Nat
  | [] => none
  | some e :: _ => some e
  | none :: rest => firstSome rest

/-- Last error in a list of delivery results (none entries are successes). -/
def lastSome : List (Option Nat) → Option Nat
  | [] => none
  | x :: rest =>
    match lastSome rest with
    | some e => some e
    | none => x

/-! ## Checkpoint stream -/

/-- One record written to the main checkpoint stream by Kernel.SaveTo. -/
inductive SaveItem
  | cpuFeatureSet (fs : Nat)
  | kernelGraph (g : Nat)
  | mainMemoryFile (mf : Nat)
  | privateMFMeta (owners : List String)
  | privateMFContents (owner : String) (mf : Nat)
deriving DecidableEq

/-- Model of savePrivateMFs (kernel.go:587-608). The Go code iterates the
map mfsToSave with a range loop to build meta.owners, then saves each file
in the meta.owners order; since Go map iteration order is unspecified, the
model takes the iteration as an explicit argument: iter is the list of
(owner, memory file) entries in the order the range loop produced them,
which may be any permutation of the map entries. -/
def savePrivateMFs (iter : List (String × Nat)) : List SaveItem :=
  .privateMFMeta (iter.map Prod.fst) ::
    iter.map (fun p => .privateMFContents p.1 p.2)

/-- Model of the sequence of records Kernel.SaveTo (kernel.go:613-707)
writes to the single stream w when no separate pages streams are supplied:
the CPUID feature set (kernel.go:671), the kernel object graph
(kernel.go:689), then saveMemoryFiles (kernel.go:714-733), which writes the
root memory file followed by savePrivateMFs. -/
def saveToStream (featureSet kernelGraph mainMF : Nat)
    (iter : List (String × Nat)) : List SaveItem :=
  [.cpuFeatureSet featureSet, .kernelGraph kernelGraph,
   .mainMemoryFile mainMF] ++ savePrivateMFs iter

/-! ## Restore -/

/-- Errors surfaced by Kernel.LoadFrom before the memory-file stage. -/
inductive LoadError
  | streamError (n : Nat)
  | incompatibleFeatureSet (fs : Nat)
deriving DecidableEq

/-- Kernel state as LoadFrom mutates it from the checkpoint stream: the CPU
feature set (loaded first, kernel.go:775) and the remainder of the kernel
object graph (loaded by state.Load of the whole Kernel, kernel.go:790),
collapsed into one abstract component. -/
structure LoadKernel where
  featureSet : Nat
  kernelGraph : Nat
deriving DecidableEq

/-- Outcome of loadFrom: the error if any, the kernel state afterwards, and
whether state.Load of the full kernel object graph was invoked. -/
structure LoadResult where
  error : Option LoadError
  kernel : LoadKernel
  kernelLoadInvoked : Bool
deriving DecidableEq

/-- Model of the prefix of Kernel.LoadFrom (kernel.go:761-795) up to and
including the kernel object-graph load: load the pre-saved CPUID feature set
into k.featureSet, check host compatibility (CheckHostCompatible, modelled
by the predicate hostCompatible), and only then load the kernel state. The
stream reads are oracles fsRead and kernelRead. -/
def loadFrom (k : LoadKernel) (fsRead : Except Nat Nat)
    (hostCompatible : Nat → Bool) (kernelRead : Except Nat Nat) : LoadResult :=
  match fsRead with
  | .error n => ⟨some (.streamError n), k, false⟩
  | .ok fs =>
    let k1 : LoadKernel := { k with featureSet := fs }
    if hostCompatible fs = false then
      ⟨some (.incompatibleFeatureSet fs), k1, false⟩
    else
      match kernelRead with
      | .error n => ⟨some (.streamError n), k1, true⟩
      | .ok g => ⟨none, { k1 with kernelGraph := g }, true⟩

/-! ## Save status -/

/-- Values of the Kernel.saveStatus error field (kernel.go:260-264) other
than nil: the package-private sentinels errSaved and errAutoSaved
(kernel.go:1597-1600), and any other error, which callers outside the
package supply to SetSaveError (the sentinels are unexported and are never
returned out of the package, so external callers cannot pass them). -/
inductive SaveStatusError
  | errSaved
  | errAutoSaved
  | external (n : Nat)
deriving DecidableEq

/-- Model of Kernel.SetSaveSuccess (kernel.go:1623-1633): set the status to
the appropriate sentinel only if no status was already set. -/
def setSaveSuccess (autosave : Bool) (saveStatus : Option SaveStatusError) :
    Option SaveStatusError :=
  match saveStatus with
  | none => some (if autosave then .errAutoSaved else .errSaved)
  | some s => some s

/-- Model of Kernel.SetSaveError (kernel.go:1637-1643): set the status to
err only if no status was already set. err is an Option because the Go
argument is a nil-able error. -/
def setSaveError (err : Option SaveStatusError)
    (saveStatus : Option SaveStatusError) : Option SaveStatusError :=
  match saveStatus with
  | none => err
  | some s => some s

/-- Model of Kernel.SaveStatus (kernel.go:1606-1619): returns
(saved, autosaved, err) decoded from the saveStatus field. -/
def saveStatusQuery : Option SaveStatusError →
    Bool × Bool × Option SaveStatusError
  | none => (false, false, none)
  | some .errSaved => (true, false, none)
  | some .errAutoSaved => (true, true, none)
  | some (.external n) => (false, false, some (.external n))

/-- A later call mutating the save status. -/
inductive SaveStatusOp
  | setSuccess (autosave : Bool)
  | setError (err : Option SaveStatusError)

/-- Apply a sequence of SetSaveSuccess/SetSaveError calls in order. -/
def applySaveStatusOps (ops : List SaveStatusOp)
    (s : Option SaveStatusError) : Option SaveStatusError :=
  ops.foldl
    (fun st op =>
      match op with
      | .setSuccess a => setSaveSuccess a st
      | .setError e => setSaveError e st)
    s

/-! ## UniqueID -/

/-- Model of one call to Kernel.UniqueID (kernel.go:860-866) from a current
uniqueID counter value: the counter is a uint64 incremented atomically with
wraparound; if the incremented value is 0 the function panics (modelled as
none), otherwise it returns the incremented value, which is also the new
counter value. -/
def uniqueIDStep (uniqueID : Nat) : Option (Nat × Nat) :=
  if (uniqueID + 1) % 2 ^ 64 = 0 then none
  else some ((uniqueID + 1) % 2 ^ 64, (uniqueID + 1) % 2 ^ 64)

/-- Run n successive UniqueID calls from a counter value, collecting the
returned identifiers in order; none if some call panicked. -/
def uniqueIDRun : Nat → Nat → Option (List Nat × Nat)
  | c, 0 => some ([], c)
  | c, n + 1 =>
    match uniqueIDStep c with
    | none => none
    | some (id, c1) =>
      match uniqueIDRun c1 n with
      | none => none
      | some (ids, cf) => some (id :: ids, cf)

/-! ## Container names -/

/-- Model of the Kernel.containerNames map as a total function with the Go
zero-value convention: looking up an absent container ID yields "". -/
def emptyContainerNames : String → String := fun _ => ""

/-- Model of Kernel.RegisterContainerName (kernel.go:2074-2078):
containerNames[cid] = containerName. -/
def registerContainerName (m : String → String) (cid containerName : String) :
    String → String :=
  fun c => if c = cid then containerName else m c

/-- Model of Kernel.RestoreContainerMapping (kernel.go:2083-2092): the table
is replaced by a fresh map, then for each (name, cid) entry of containerIDs
the new table gets containerNames[cid] = name. entries lists the
(name, new container ID) pairs of the containerIDs map in the order the Go
range loop iterates them, which may be any permutation of the map entries. -/
def restoreContainerMapping (entries : List (String × String)) :
    String → String :=
  entries.foldl (fun acc p => fun c => if c = p.2 then p.1 else acc c)
    emptyContainerNames

/-- Model of Kernel.ContainerName (kernel.go:2095-2099). -/
def containerName (m : String → String) (cid : String) : String :=
  m cid

/-! ## Helper lemmas -/

/-- Helper for C3: running a prefix-balanced operation sequence from any
starting value never hits the panic branch and computes the net count. -/
theorem runTaskCountOps_balanced (ops : List TaskCountOp) :
    ∀ s : Int,
      (∀ n, n ≤ ops.length →
        ((ops.take n).count TaskCountOp.dec : Int) ≤
          s + (ops.take n).count TaskCountOp.inc) →
      runTaskCountOps s ops =
        some (s + ops.count TaskCountOp.inc - ops.count TaskCountOp.dec) := by
  induction ops with
  | nil =>
    intro s _
    simp [runTaskCountOps]
  | cons op rest ih =>
    intro s h
    cases op with
    | inc =>
      have h1 : ∀ n, n ≤ rest.length →
          ((rest.take n).count TaskCountOp.dec : Int) ≤
            (s + 1) + (rest.take n).count TaskCountOp.inc := by
        intro n hn
        have h2 := h (n + 1) (by simpa using Nat.succ_le_succ hn)
        rw [List.take_succ_cons,
          List.count_cons_of_ne (by decide : TaskCountOp.dec ≠ TaskCountOp.inc),
          List.count_cons_self] at h2
        push_cast at h2 ⊢
        omega
      have h3 := ih (s + 1) h1
      rw [show runTaskCountOps s (TaskCountOp.inc :: rest) =
            runTaskCountOps (s + 1) rest from rfl, h3,
        List.count_cons_of_ne (by decide : TaskCountOp.dec ≠ TaskCountOp.inc),
        List.count_cons_self]
      congr 1
      push_cast
      ring
    | dec =>
      have hs : (1 : Int) ≤ s := by
        have h2 := h 1 (by simp)
        simpa [List.count_cons_self,
          List.count_cons_of_ne
            (by decide : TaskCountOp.inc ≠ TaskCountOp.dec)] using h2
      have h1 : ∀ n, n ≤ rest.length →
          ((rest.take n).count TaskCountOp.dec : Int) ≤
            (s - 1) + (rest.take n).count TaskCountOp.inc := by
        intro n hn
        have h2 := h (n + 1) (by simpa using Nat.succ_le_succ hn)
        rw [List.take_succ_cons,
          List.count_cons_of_ne (by decide : TaskCountOp.inc ≠ TaskCountOp.dec),
          List.count_cons_self] at h2
        push_cast at h2 ⊢
        omega
      have h3 := ih (s - 1) h1
      have hstep : decRunningTasks s = some (s - 1) := by
        unfold decRunningTasks
        rw [if_neg (by omega)]
      have hrun : runTaskCountOps s (TaskCountOp.dec :: rest) =
          runTaskCountOps (s - 1) rest := by
        show (match decRunningTasks s with
              | none => none
              | some n => runTaskCountOps n rest) = _
        rw [hstep]
      rw [hrun, h3,
        List.count_cons_of_ne (by decide : TaskCountOp.inc ≠ TaskCountOp.dec),
        List.count_cons_self]
      congr 1
      push_cast
      ring

/-- Helper for C8: once the save status holds a value, no later sequence of
SetSaveSuccess/SetSaveError calls changes it. -/
theorem applySaveStatusOps_some (ops : List SaveStatusOp) (v : SaveStatusError) :
    applySaveStatusOps ops (some v) = some v := by
  induction ops with
  | nil => rfl
  | cons op rest ih =>
    cases op with
    | setSuccess a => simpa [applySaveStatusOps, setSaveSuccess] using ih
    | setError e => simpa [applySaveStatusOps, setSaveError] using ih

/-- Helper for C9: every sequence of identifiers returned by successive
UniqueID calls is pairwise strictly increasing, nonzero, above the starting
counter, and leaves the counter in range. -/
theorem uniqueIDRun_increasing (n : Nat) :
    ∀ c, c < 2 ^ 64 → ∀ ids cf, uniqueIDRun c n = some (ids, cf) →
      List.Pairwise (· < ·) ids ∧ (∀ i ∈ ids, i ≠ 0 ∧ c < i) ∧
        c ≤ cf ∧ cf < 2 ^ 64 := by
  induction n with
  | zero =>
    intro c hc ids cf h
    simp [uniqueIDRun] at h
    obtain ⟨h1, h2⟩ := h
    subst h1
    subst h2
    exact ⟨List.Pairwise.nil, by simp, Nat.le_refl c, hc⟩
  | succ n ih =>
    intro c hc ids cf h
    unfold uniqueIDRun uniqueIDStep at h
    by_cases hwrap : c + 1 < 2 ^ 64
    · rw [Nat.mod_eq_of_lt hwrap, if_neg (Nat.succ_ne_zero c)] at h
      have h0 : (match uniqueIDRun (c + 1) n with
                 | none => none
                 | some (ids, cf) => some ((c + 1) :: ids, cf)) =
          some (ids, cf) := h
      cases hrun : uniqueIDRun (c + 1) n with
      | none =>
        rw [hrun] at h0
        exact absurd h0 (by simp)
      | some p =>
        obtain ⟨ids1, cf1⟩ := p
        rw [hrun] at h0
        simp at h0
        replace h := h0
        obtain ⟨hids, hcf⟩ := h
        obtain ⟨hpw, hmem, hle, hlt⟩ := ih (c + 1) hwrap ids1 cf1 hrun
        subst hids
        subst hcf
        refine ⟨List.Pairwise.cons (fun x hx => (hmem x hx).2) hpw, ?_, ?_, hlt⟩
        · intro i hi
          rcases List.mem_cons.mp hi with hi | hi
          · subst hi
            exact ⟨Nat.succ_ne_zero c, Nat.lt_succ_self c⟩
          · exact ⟨(hmem i hi).1, Nat.lt_of_succ_le (Nat.le_of_lt (hmem i hi).2)⟩
        · omega
    · have heq : c + 1 = 2 ^ 64 := by omega
      rw [heq, Nat.mod_self] at h
      simp at h

/-- Helper for C4: the process-group loop visits every matching thread group
and returns the first delivery error, whatever state the accumulators are
in. -/
theorem sendExternalSignalProcessGroupLoop_spec (deliver : Nat → Option Nat)
    (pg : Nat) (tgs : List SigThreadGroup) :
    ∀ attempted firstErr,
      sendExternalSignalProcessGroupLoop deliver pg tgs attempted firstErr =
        (attempted ++
           (tgs.filter (fun tg => tg.processGroup = pg)).map SigThreadGroup.id,
         match firstErr with
         | some e => some e
         | none =>
           firstSome ((tgs.filter (fun tg => tg.processGroup = pg)).map
             (fun tg => deliver tg.id))) := by
  induction tgs with
  | nil =>
    intro attempted firstErr
    cases firstErr <;> simp [sendExternalSignalProcessGroupLoop, firstSome]
  | cons tg rest ih =>
    intro attempted firstErr
    simp only [sendExternalSignalProcessGroupLoop]
    by_cases hpg : tg.processGroup = pg
    · rw [if_neg (not_not_intro hpg), ih,
        List.filter_cons_of_pos (by simpa using hpg)]
      simp only [List.map_cons, List.append_assoc, List.singleton_append]
      cases firstErr <;> cases hdel : deliver tg.id <;>
        simp [firstSome, hdel]
    · rw [if_pos hpg, ih, List.filter_cons_of_neg (by simpa using hpg)]

/-- Helper for C4: the container loop visits every matching thread group and
returns the last delivery error, whatever state the accumulators are in. -/
theorem sendContainerSignalLoop_spec (deliver : Nat → Option Nat)
    (cid : String) (tgs : List SigThreadGroup) :
    ∀ attempted lastErr,
      sendContainerSignalLoop deliver cid tgs attempted lastErr =
        (attempted ++
           (tgs.filter (fun tg => tg.leaderContainerID = cid)).map
             SigThreadGroup.id,
         match lastSome ((tgs.filter
             (fun tg => tg.leaderContainerID = cid)).map
             (fun tg => deliver tg.id)) with
         | some e => some e
         | none => lastErr) := by
  induction tgs with
  | nil =>
    intro attempted lastErr
    simp [sendContainerSignalLoop, lastSome]
  | cons tg rest ih =>
    intro attempted lastErr
    simp only [sendContainerSignalLoop]
    by_cases hcid : tg.leaderContainerID = cid
    · rw [if_neg (not_not_intro hcid), ih,
        List.filter_cons_of_pos (by simpa using hcid)]
      simp only [List.map_cons, List.append_assoc, List.singleton_append,
        lastSome]
      cases hrest : lastSome ((rest.filter
          (fun tg => tg.leaderContainerID = cid)).map
          (fun tg => deliver tg.id)) <;>
        cases hdel : deliver tg.id <;> simp [hrest, hdel]
    · rw [if_pos hcid, ih, List.filter_cons_of_neg (by simpa using hcid)]

/-- Helper for C10: a container ID that is the value of no entry is left
untouched by the restore fold, whatever table it started from. -/
theorem restoreContainerMapping_foldl_not_mem
    (entries : List (String × String)) :
    ∀ (acc : String → String) (c : String), c ∉ entries.map Prod.snd →
      (entries.foldl (fun acc p => fun x => if x = p.2 then p.1 else acc x)
        acc) c = acc c := by
  induction entries with
  | nil =>
    intro acc c _
    rfl
  | cons q rest ih =>
    intro acc c hc
    rw [List.map_cons, List.mem_cons] at hc
    push_neg at hc
    rw [List.foldl_cons, ih _ c hc.2]
    exact if_neg hc.1

/-- Helper for C10: when the entry values are pairwise distinct, the restore
fold sends each entry value to that entry's name, whatever table it started
from. -/
theorem restoreContainerMapping_foldl_mem (entries : List (String × String))
    (hvals : (entries.map Prod.snd).Nodup) :
    ∀ (acc : String → String), ∀ p ∈ entries,
      (entries.foldl (fun acc p => fun x => if x = p.2 then p.1 else acc x)
        acc) p.2 = p.1 := by
  induction entries with
  | nil =>
    intro acc p hp
    exact absurd hp (List.not_mem_nil p)
  | cons q rest ih =>
    intro acc p hp
    rw [List.map_cons, List.nodup_cons] at hvals
    rw [List.foldl_cons]
    rcases List.mem_cons.mp hp with hp | hp
    · subst hp
      rw [restoreContainerMapping_foldl_not_mem rest _ p.2 hvals.1]
      exact if_pos rfl
    · exact ih hvals.2 _ p hp

/-- Helper for C1: a successful resolution returns exactly the filename the
spec describes: the explicit Filename, else the mapped name of the provided
file, else the first argv element. -/
theorem resolveExecutable_ok (filename : String) (file : Option FileDescription)
    (argv : List String) (fname : String) (f : Option FileDescription)
    (h : resolveExecutable filename file argv = .ok (fname, f)) :
    (filename ≠ "" → fname = filename)
    ∧ (filename = "" → ∀ fd, file = some fd → fname = fd.mappedName)
    ∧ (filename = "" → file = none →
        fname = argv.headD "" ∧ filepathIsAbs (argv.headD "") = true) := by
  refine ⟨?_, ?_, ?_⟩
  · intro hfn
    unfold resolveExecutable at h
    rw [if_pos hfn] at h
    simp at h
    exact h.1.symm
  · intro hfn fd hfd
    subst hfn
    subst hfd
    unfold resolveExecutable at h
    rw [if_neg (by simp)] at h
    simp at h
    exact h.1.symm
  · intro hfn hfile
    subst hfn
    subst hfile
    unfold resolveExecutable at h
    rw [if_neg (by simp)] at h
    cases argv with
    | nil =>
      exact absurd (show Except.error CreateProcessError.noFilenameOrCommand =
        Except.ok (fname, f) from h) (by simp)
    | cons a0 rest =>
      have h2 : (if filepathIsAbs a0 = true then
            Except.ok (a0, (none : Option FileDescription))
          else
            Except.error (CreateProcessError.notAnAbsolutePath a0)) =
          Except.ok (fname, f) := h
      split at h2
      · rename_i habs
        simp at h2
        exact ⟨by simp [h2.1.symm], by simpa using habs⟩
      · exact absurd h2 (by simp)

/-- Helper for C1: when Filename is empty, File is nil and argv is empty or
starts with a non-absolute path, resolution fails. -/
theorem resolveExecutable_error (argv : List String)
    (hargv : argv = [] ∨ filepathIsAbs (argv.headD "") = false) :
    ∃ e, resolveExecutable "" none argv = .error e := by
  unfold resolveExecutable
  cases argv with
  | nil => exact ⟨.noFilenameOrCommand, rfl⟩
  | cons a0 rest =>
    rcases hargv with hargv | hargv
    · exact absurd hargv (by simp)
    · simp only [List.headD_cons] at hargv
      exact ⟨.notAnAbsolutePath a0, by simp [hargv]⟩

/-! ## Claim theorems -/

/-- C2: Kernel.Start succeeds at most once: the first call returns nil,
arms the CPU-clock ticker, and starts every registered task exactly once;
every subsequent call on the same Kernel returns the error
"kernel already started" without starting any task or re-arming the
ticker. -/
theorem kernel_start_at_most_once (k : Kernel)
    (hnodup : k.registeredTasks.Nodup) :
    (k.started = false →
      k.start = (.ok (),
        { k with started := true, cpuClockTickerRunning := true },
        k.registeredTasks)
      ∧ ∀ t ∈ k.registeredTasks, (k.start).2.2.count t = 1)
    ∧ (k.started = true →
      k.start = (.error "kernel already started", k, [])) := by
  constructor
  · intro h
    constructor
    · simp [Kernel.start, h]
    · intro t ht
      have h2 : (k.start).2.2 = k.registeredTasks := by
        simp [Kernel.start, h]
      rw [h2]
      exact List.count_eq_one_of_mem hnodup ht
  · intro h
    simp [Kernel.start, h]

/-- Witness for C2: a concrete unstarted kernel with two registered tasks
starts successfully, arming the ticker and starting each task once, and
the resulting started kernel refuses a second Start. -/
theorem kernel_start_witness :
    (Kernel.mk none 0 [] false false [5, 7]).start
      = (.ok (), Kernel.mk none 0 [] true true [5, 7], [5, 7])
    ∧ ((Kernel.mk none 0 [] false false [5, 7]).start).2.2.count 5 = 1
    ∧ (Kernel.mk none 0 [] true true [5, 7]).start
      = (.error "kernel already started",
         Kernel.mk none 0 [] true true [5, 7], []) :=
  ⟨((kernel_start_at_most_once (Kernel.mk none 0 [] false false [5, 7])
      (by decide)).1 rfl).1,
   ((kernel_start_at_most_once (Kernel.mk none 0 [] false false [5, 7])
      (by decide)).1 rfl).2 5 (by decide),
   (kernel_start_at_most_once (Kernel.mk none 0 [] true true [5, 7])
      (by decide)).2 rfl⟩

/-- C3: for every sequence of incRunningTasks/decRunningTasks calls in which
each decrement is preceded by a matching unconsumed increment (every prefix
has at least as many increments as decrements), the counter starting from 0
stays non-negative and the fatal branch in decRunningTasks is never reached,
and the final value is the net count; a decrement from a non-positive
counter hits the panic branch. -/
theorem runningTasks_never_negative (ops : List TaskCountOp)
    (hbal : ∀ n, n ≤ ops.length →
      ((ops.take n).count TaskCountOp.dec : Int) ≤
        (ops.take n).count TaskCountOp.inc) :
    (∃ r, runTaskCountOps 0 ops = some r ∧ 0 ≤ r ∧
      r = (ops.count TaskCountOp.inc : Int) - ops.count TaskCountOp.dec)
    ∧ ∀ s : Int, s ≤ 0 → decRunningTasks s = none := by
  constructor
  · have h := runTaskCountOps_balanced ops 0 (by
      intro n hn
      have := hbal n hn
      omega)
    refine ⟨(0 : Int) + ops.count TaskCountOp.inc - ops.count TaskCountOp.dec,
      h, ?_, by ring⟩
    have h2 := hbal ops.length (le_refl _)
    rw [List.take_length] at h2
    omega
  · intro s hs
    unfold decRunningTasks
    rw [if_pos (by omega)]

/-- Witness for C3: the balanced sequence inc, inc, dec, dec runs without
hitting the panic branch and ends at zero, and a lone decrement from zero
panics. -/
theorem runningTasks_witness :
    runTaskCountOps 0
      [TaskCountOp.inc, TaskCountOp.inc, TaskCountOp.dec, TaskCountOp.dec]
      = some 0
    ∧ decRunningTasks 0 = none := by
  have h := runningTasks_never_negative
    [TaskCountOp.inc, TaskCountOp.inc, TaskCountOp.dec, TaskCountOp.dec]
    (by decide)
  obtain ⟨⟨r, hr, _, hval⟩, hdec⟩ := h
  refine ⟨?_, hdec 0 (le_refl 0)⟩
  rw [hr, hval]
  decide

/-- C5: when the loaded CPU feature set is incompatible with the host,
LoadFrom returns the compatibility error before the kernel object graph is
loaded: state.Load of the Kernel is never invoked and the only field
mutated from the stream is the feature set. -/
theorem loadFrom_incompatible_fails_before_kernel_load (k : LoadKernel)
    (fs : Nat) (hostCompatible : Nat → Bool) (kernelRead : Except Nat Nat)
    (h : hostCompatible fs = false) :
    loadFrom k (.ok fs) hostCompatible kernelRead =
      ⟨some (.incompatibleFeatureSet fs), { k with featureSet := fs },
       false⟩ := by
  simp [loadFrom, h]

/-- Witness for C5: a concrete incompatible load mutates only the feature
set and never invokes the kernel object-graph load. -/
theorem loadFrom_incompatible_witness :
    loadFrom ⟨0, 0⟩ (.ok 5) (fun _ => false) (.ok 7) =
      ⟨some (.incompatibleFeatureSet 5), ⟨5, 0⟩, false⟩ :=
  loadFrom_incompatible_fails_before_kernel_load ⟨0, 0⟩ 5 (fun _ => false)
    (.ok 7) rfl

/-- C8: the save status is sticky and first-writer-wins: SetSaveSuccess and
SetSaveError change saveStatus only when it is still unset; after a first
SetSaveSuccess(autosave), SaveStatus returns (true, autosave, nil), and
after a first SetSaveError with a caller-supplied error, SaveStatus returns
(false, false, that error), in both cases regardless of any later
SetSaveSuccess or SetSaveError calls. -/
theorem saveStatus_first_writer_wins (a : Bool) (n : Nat)
    (e s : Option SaveStatusError) (hs : s ≠ none)
    (ops ops2 : List SaveStatusOp) :
    (setSaveSuccess a s = s ∧ setSaveError e s = s)
    ∧ saveStatusQuery (applySaveStatusOps ops (setSaveSuccess a none))
        = (true, a, none)
    ∧ saveStatusQuery
        (applySaveStatusOps ops2 (setSaveError (some (.external n)) none))
        = (false, false, some (.external n)) := by
  refine ⟨⟨?_, ?_⟩, ?_, ?_⟩
  · cases s with
    | none => exact absurd rfl hs
    | some v => rfl
  · cases s with
    | none => exact absurd rfl hs
    | some v => rfl
  · show saveStatusQuery (applySaveStatusOps ops
      (some (if a then .errAutoSaved else .errSaved))) = _
    rw [applySaveStatusOps_some]
    cases a <;> rfl
  · show saveStatusQuery (applySaveStatusOps ops2
      (some (.external n))) = _
    rw [applySaveStatusOps_some]
    rfl

/-- Witness for C8: with the status already set to the saved sentinel,
both setters are no-ops; a first success survives a later error, and a
first error survives a later success. -/
theorem saveStatus_witness :
    (setSaveSuccess false (some .errSaved) = some .errSaved
      ∧ setSaveError none (some .errSaved) = some .errSaved)
    ∧ saveStatusQuery (applySaveStatusOps [.setError (some (.external 9))]
        (setSaveSuccess false none)) = (true, false, none)
    ∧ saveStatusQuery (applySaveStatusOps [.setSuccess true]
        (setSaveError (some (.external 3)) none))
        = (false, false, some (.external 3)) :=
  saveStatus_first_writer_wins false 3 none (some .errSaved) (by decide)
    [.setError (some (.external 9))] [.setSuccess true]

/-- C9: UniqueID returns a strictly increasing sequence of identifiers and
never returns zero: from any in-range counter value, every sequence of
successful calls returns pairwise strictly increasing nonzero values above
the starting counter, and the call that would wrap the counter to 0 panics
instead of returning. -/
theorem uniqueID_strictly_increasing (c n0 : Nat) (hc : c < 2 ^ 64) :
    (∀ ids cf, uniqueIDRun c n0 = some (ids, cf) →
      List.Pairwise (· < ·) ids ∧ ∀ i ∈ ids, i ≠ 0 ∧ c < i)
    ∧ uniqueIDStep (2 ^ 64 - 1) = none := by
  constructor
  · intro ids cf h
    obtain ⟨hpw, hmem, _, _⟩ := uniqueIDRun_increasing n0 c hc ids cf h
    exact ⟨hpw, hmem⟩
  · unfold uniqueIDStep
    rw [if_pos (by
      rw [Nat.sub_add_cancel (by norm_num : (1 : Nat) ≤ 2 ^ 64)]
      exact Nat.mod_self _)]

/-- Witness for C9: three calls starting from a fresh counter return
1, 2, 3: pairwise strictly increasing and nonzero. -/
theorem uniqueID_witness :
    List.Pairwise (· < ·) [1, 2, 3]
    ∧ ∀ i ∈ ([1, 2, 3] : List Nat), i ≠ 0 ∧ 0 < i :=
  (uniqueID_strictly_increasing 0 3 (by norm_num)).1 [1, 2, 3] 3 (by decide)

/-- C1: for every CreateProcessArgs with empty Filename and nil File,
CreateProcess returns a descriptive error and leaves the kernel unchanged
(no process created) when Argv is empty or Argv[0] is not an absolute path;
and on every successful call the executable handed to the loader is the
non-empty Filename, else the mapped name of the provided File, else the
absolute Argv[0]. -/
theorem createProcess_executable_resolution (k : Kernel)
    (args : CreateProcessArgs) (ext : CreateProcessExt) :
    (args.filename = "" → args.file = none →
      (args.argv = [] ∨ filepathIsAbs (args.argv.headD "") = false) →
      ∃ e, k.createProcess args ext = (.error e, k))
    ∧ (∀ r k1, k.createProcess args ext = (.ok r, k1) →
        (args.filename ≠ "" → r.loadedFilename = args.filename)
        ∧ (args.filename = "" → ∀ fd, args.file = some fd →
            r.loadedFilename = fd.mappedName)
        ∧ (args.filename = "" → args.file = none →
            r.loadedFilename = args.argv.headD ""
            ∧ filepathIsAbs (args.argv.headD "") = true)) := by
  constructor
  · intro hf hfile hargv
    unfold Kernel.createProcess
    split
    · exact ⟨.mountNamespaceNil, rfl⟩
    · split
      · exact ⟨.workingDirLookupFailed args.workingDirectory, rfl⟩
      · obtain ⟨e, he⟩ := resolveExecutable_error args.argv hargv
        refine ⟨e, ?_⟩
        rw [hf, hfile, he]
  · intro r k1 h
    unfold Kernel.createProcess at h
    split at h
    · simp at h
    · split at h
      · simp at h
      · split at h
        · simp at h
        · rename_i fname f heq
          split at h
          · simp at h
          · split at h
            · simp at h
            · split at h
              · simp at h
              · split at h
                · simp at h
                · simp only [Prod.mk.injEq, Except.ok.injEq] at h
                  obtain ⟨hr, _⟩ := h
                  subst hr
                  exact resolveExecutable_ok args.filename args.file args.argv
                    fname f heq

/-- Witness for C1: a relative Argv[0] with no Filename and no File is
rejected with an error and the kernel is unchanged. -/
theorem createProcess_resolution_witness :
    ∃ e, (Kernel.mk none 0 [] false false []).createProcess
      (CreateProcessArgs.mk "" none ["true"] "" true false)
      (CreateProcessExt.mk true (.ok 0) true true true) =
      (.error e, Kernel.mk none 0 [] false false []) :=
  (createProcess_executable_resolution (Kernel.mk none 0 [] false false [])
    (CreateProcessArgs.mk "" none ["true"] "" true false)
    (CreateProcessExt.mk true (.ok 0) true true true)).1
    rfl rfl (Or.inr (by decide))

/-- C7: globalInit is assigned only by the first successful CreateProcess
call: a failed call never changes it, a successful call with globalInit nil
sets it to the newly created thread group, and a successful call with
globalInit already set leaves it unchanged. -/
theorem globalInit_assigned_only_first_success (k : Kernel)
    (args : CreateProcessArgs) (ext : CreateProcessExt) :
    (∀ e k1, k.createProcess args ext = (.error e, k1) →
      k1.globalInit = k.globalInit)
    ∧ (k.globalInit = none → ∀ r k1,
        k.createProcess args ext = (.ok r, k1) →
        k1.globalInit = some r.tgID)
    ∧ (∀ g, k.globalInit = some g → ∀ r k1,
        k.createProcess args ext = (.ok r, k1) → k1.globalInit = some g) := by
  refine ⟨?_, ?_, ?_⟩
  · intro e k1 h
    unfold Kernel.createProcess at h
    split at h
    · simp at h
      rw [h.2]
    · split at h
      · simp at h
        rw [h.2]
      · split at h
        · simp at h
          rw [h.2]
        · split at h
          · simp at h
            rw [h.2]
          · split at h
            · simp at h
              rw [h.2]
            · split at h
              · simp at h
                rw [h.2]
              · split at h
                · simp at h
                  rw [h.2]
                · simp at h
  · intro hinit r k1 h
    unfold Kernel.createProcess at h
    split at h
    · simp at h
    · split at h
      · simp at h
      · split at h
        · simp at h
        · split at h
          · simp at h
          · split at h
            · simp at h
            · split at h
              · simp at h
              · split at h
                · simp at h
                · simp only [Prod.mk.injEq, Except.ok.injEq] at h
                  obtain ⟨hr, hk⟩ := h
                  subst hr
                  rw [← hk]
                  simp [hinit]
  · intro g hinit r k1 h
    unfold Kernel.createProcess at h
    split at h
    · simp at h
    · split at h
      · simp at h
      · split at h
        · simp at h
        · split at h
          · simp at h
          · split at h
            · simp at h
            · split at h
              · simp at h
              · split at h
                · simp at h
                · simp only [Prod.mk.injEq, Except.ok.injEq] at h
                  obtain ⟨hr, hk⟩ := h
                  rw [← hk]
                  simp [hinit]

/-- Witness for C7: the first successful CreateProcess on a kernel with nil
globalInit assigns the new thread group as globalInit. -/
theorem globalInit_witness :
    ((Kernel.mk none 0 [] false false []).createProcess
      (CreateProcessArgs.mk "/bin/true" none [] "" true false)
      (CreateProcessExt.mk true (.ok 0) true true true)).2.globalInit
      = some 0 :=
  (globalInit_assigned_only_first_success (Kernel.mk none 0 [] false false [])
    (CreateProcessArgs.mk "/bin/true" none [] "" true false)
    (CreateProcessExt.mk true (.ok 0) true true true)).2.1 rfl
    ⟨0, "/bin/true", none⟩
    ((Kernel.mk none 0 [] false false []).createProcess
      (CreateProcessArgs.mk "/bin/true" none [] "" true false)
      (CreateProcessExt.mk true (.ok 0) true true true)).2
    (by rfl)

/-- C4 counterexample: SendContainerSignal does not return the first error.
With three thread groups in container "c" whose deliveries are error 11,
error 22 and success, all three targets are attempted, the first error is
11, yet the returned error is 22 (the last one), refuting the claim that
both multi-target operations return the first error encountered. -/
theorem sendContainerSignal_not_first_error :
    (sendContainerSignal [⟨1, 0, "c"⟩, ⟨2, 0, "c"⟩, ⟨3, 0, "c"⟩] "c"
        (fun n => if n = 1 then some 11 else
          if n = 2 then some 22 else none)).1 = [1, 2, 3]
    ∧ firstSome ((([⟨1, 0, "c"⟩, ⟨2, 0, "c"⟩, ⟨3, 0, "c"⟩] :
          List SigThreadGroup).filter
          (fun tg => tg.leaderContainerID = "c")).map
          (fun tg => if tg.id = 1 then some 11 else
            if tg.id = 2 then some 22 else none)) = some 11
    ∧ (sendContainerSignal [⟨1, 0, "c"⟩, ⟨2, 0, "c"⟩, ⟨3, 0, "c"⟩] "c"
        (fun n => if n = 1 then some 11 else
          if n = 2 then some 22 else none)).2 = some 22 := by
  decide

/-- C4 amended: both multi-target signal operations attempt delivery to
every matching target even when a delivery fails;
SendExternalSignalProcessGroup returns the first error encountered (or nil
if all deliveries succeed), while SendContainerSignal returns the LAST
error encountered (or nil if all deliveries succeed). -/
theorem signal_delivery_best_effort (tgs : List SigThreadGroup) (pg : Nat)
    (cid : String) (deliver : Nat → Option Nat) :
    (sendExternalSignalProcessGroup tgs pg deliver).1
        = (tgs.filter (fun tg => tg.processGroup = pg)).map SigThreadGroup.id
    ∧ (sendExternalSignalProcessGroup tgs pg deliver).2
        = firstSome ((tgs.filter (fun tg => tg.processGroup = pg)).map
            (fun tg => deliver tg.id))
    ∧ (sendContainerSignal tgs cid deliver).1
        = (tgs.filter (fun tg => tg.leaderContainerID = cid)).map
            SigThreadGroup.id
    ∧ (sendContainerSignal tgs cid deliver).2
        = lastSome ((tgs.filter (fun tg => tg.leaderContainerID = cid)).map
            (fun tg => deliver tg.id)) := by
  have h1 := sendExternalSignalProcessGroupLoop_spec deliver pg tgs [] none
  have h2 := sendContainerSignalLoop_spec deliver cid tgs [] none
  unfold sendExternalSignalProcessGroup sendContainerSignal
  rw [h1, h2]
  refine ⟨by simp, rfl, by simp, ?_⟩
  cases hls : lastSome ((tgs.filter
      (fun tg => tg.leaderContainerID = cid)).map
      (fun tg => deliver tg.id)) <;> simp [hls]

/-- C6 counterexample: the order of the private memory-file metadata record
is not deterministic for identical input: two valid iteration orders of the
same two-entry map (permutations of the same entries) produce different
checkpoint streams, refuting the claim that the owner order is stable. -/
theorem savePrivateMFs_order_not_deterministic :
    List.Perm [("a", 1), ("b", 2)] [("b", 2), ("a", 1)]
    ∧ savePrivateMFs [("a", 1), ("b", 2)] ≠
        savePrivateMFs [("b", 2), ("a", 1)] := by
  decide

/-- C6 amended: SaveTo writes the stream as an ordered sequence: CPU
feature set first, then the kernel object graph, then the root memory file,
then the private memory-file metadata record listing owners in the
(arbitrary) map iteration order, followed by each private memory file in
exactly the same order as listed in that record; the owners listed are a
permutation of the map's owners. -/
theorem saveTo_stream_structure (fs g m : Nat) (mfs iter : List (String × Nat))
    (hperm : List.Perm iter mfs) :
    saveToStream fs g m iter =
      [.cpuFeatureSet fs, .kernelGraph g, .mainMemoryFile m,
       .privateMFMeta (iter.map Prod.fst)] ++
        iter.map (fun p => .privateMFContents p.1 p.2)
    ∧ List.Perm (iter.map Prod.fst) (mfs.map Prod.fst) :=
  ⟨rfl, hperm.map Prod.fst⟩

/-- Witness for C6 amended: a concrete two-file save stream in full. -/
theorem saveTo_stream_witness :
    saveToStream 1 2 3 [("a", 4), ("b", 5)] =
      [.cpuFeatureSet 1, .kernelGraph 2, .mainMemoryFile 3,
       .privateMFMeta ["a", "b"], .privateMFContents "a" 4,
       .privateMFContents "b" 5]
    ∧ List.Perm (["a", "b"] : List String) ["a", "b"] :=
  saveTo_stream_structure 1 2 3 [("a", 4), ("b", 5)] [("a", 4), ("b", 5)]
    (List.Perm.refl _)

/-- C10 counterexample: when two names map to the same new container ID,
RestoreContainerMapping cannot invert both pairs: with
m = [("a", "X"), ("b", "X")], the pair ("a", "X") is in m but
ContainerName("X") returns "b", refuting the claim that ContainerName(cid)
returns name for EVERY (name, cid) pair of m. -/
theorem restoreContainerMapping_not_inverse_on_dup :
    ("a", "X") ∈ [("a", "X"), ("b", "X")]
    ∧ containerName (restoreContainerMapping [("a", "X"), ("b", "X")]) "X"
        ≠ "a"
    ∧ containerName (restoreContainerMapping [("a", "X"), ("b", "X")]) "X"
        = "b" := by
  decide

/-- C10 amended: after RegisterContainerName(cid, name), ContainerName(cid)
returns name; and RestoreContainerMapping(m) discards every previously
registered mapping and replaces the table with the inverse of m, provided
the new container IDs of m are pairwise distinct: every (name, cid) pair of
m then satisfies ContainerName(cid) = name, and ContainerName of any
container ID not a value of m is the empty string. -/
theorem containerNames_registration_and_restore (m : String → String)
    (cid contName : String) (entries : List (String × String))
    (hvals : (entries.map Prod.snd).Nodup) :
    containerName (registerContainerName m cid contName) cid = contName
    ∧ (∀ p ∈ entries,
        containerName (restoreContainerMapping entries) p.2 = p.1)
    ∧ (∀ c, c ∉ entries.map Prod.snd →
        containerName (restoreContainerMapping entries) c = "") := by
  refine ⟨?_, ?_, ?_⟩
  · unfold containerName registerContainerName
    simp
  · intro p hp
    exact restoreContainerMapping_foldl_mem entries hvals emptyContainerNames
      p hp
  · intro c hc
    exact restoreContainerMapping_foldl_not_mem entries emptyContainerNames
      c hc

/-- Witness for C10 amended: a concrete registration and a concrete
injective remapping behave as stated. -/
theorem containerNames_witness :
    containerName (registerContainerName emptyContainerNames "X" "a") "X"
      = "a"
    ∧ (∀ p ∈ [("a", "X"), ("b", "Y")],
        containerName (restoreContainerMapping [("a", "X"), ("b", "Y")]) p.2
          = p.1)
    ∧ containerName (restoreContainerMapping [("a", "X"), ("b", "Y")]) "Z"
      = "" := by
  have h := containerNames_registration_and_restore emptyContainerNames "X"
    "a" [("a", "X"), ("b", "Y")] (by decide)
  exact ⟨h.1, h.2.1, h.2.2 "Z" (by decide)⟩

end GVisor
